import Mathlib

/-!
Shallow embedding of the training-client layer of the repository:
src/training/pac_env.py (single-agent client, PokemonAutoChessEnv) and
src/training/selfplay_vec_env.py (vectorized multi-agent client,
SelfPlayVecEnv).

Modelling conventions:
- Wire float32 values are only moved around by the clients, never computed
  with; they are modelled as rationals (F32 := Rat) so that equality is
  decidable.
- Every network exchange (requests.post / .json()) either yields a parsed,
  well-typed response or raises some exception. An exchange outcome is
  modelled as Option of the response type: none models any exception
  raised inside the corresponding try block (connection error, timeout,
  or a non-JSON body). The sequence of outcomes a call will see is an
  oracle (World) passed to the modelled function.
- Each modelled method returns its Python return value (or a constructor
  marking the exception it raises), the post-call session state, and a
  trace of externally visible events (exchanges, process kills, spawns,
  health checks), so that claims counting restarts or exchanges can be
  stated about the trace.
- The Python info dict is modelled by the closed record InfoMap holding
  the keys the clients read or write: actionMask (from the server),
  action_masks (injected by the client), timeout (injected on the
  synthetic-failure path). Other keys pass through untouched and are
  irrelevant to every claim.
-/

namespace PacTraining

/-- Wire float32 scalars, modelled as rationals (the client only stores and
returns them). -/
abbrev F32 := Rat

/-- RESET_MAX_RETRIES = 3 in both pac_env.py and selfplay_vec_env.py. -/
def RESET_MAX_RETRIES : Nat := 3

/-- The info mapping attached to reset/step responses, restricted to the keys
the clients touch. A none field models an absent key. -/
structure InfoMap where
  actionMask : Option (List Int) := none
  action_masks : Option (List Int) := none
  timeout : Option Bool := none
  deriving Repr, DecidableEq

/-- Parsed body of a successful POST /reset exchange. -/
structure ResetResponse where
  observation : List F32
  info : InfoMap := {}
  deriving Repr, DecidableEq

/-- Parsed body of a successful POST /step exchange. -/
structure StepResponse where
  observation : List F32
  reward : F32
  done : Bool
  info : InfoMap := {}
  deriving Repr, DecidableEq

/-- Parsed body of a successful POST /step-multi exchange. -/
structure StepMultiResponse where
  observations : List (List F32)
  rewards : List F32
  dones : List Bool
  infos : List InfoMap
  deriving Repr, DecidableEq

/-- Externally visible effects of a client call, for claims that count
exchanges, restarts and kills. The Bool on an exchange or health check
records whether it succeeded. -/
inductive Event where
  | resetExchange (ok : Bool)
  | stepExchange (ok : Bool)
  | killProc
  | killPort
  | spawnServer
  | healthCheck (ok : Bool)
  deriving Repr, DecidableEq

/-- Predicate picking reset exchanges out of a trace, successful or not. -/
def Event.isResetExchange : Event → Bool
  | Event.resetExchange _ => true
  | _ => false

/-- Predicate picking spawnServer events out of a trace. -/
def Event.isSpawn : Event → Bool
  | Event.spawnServer => true
  | _ => false

/-- Predicate picking killProc events out of a trace. -/
def Event.isKillProc : Event → Bool
  | Event.killProc => true
  | _ => false

/-- Predicate picking killPort events out of a trace. -/
def Event.isKillPort : Event → Bool
  | Event.killPort => true
  | _ => false

/-! ## Single-agent client: PokemonAutoChessEnv (src/training/pac_env.py) -/

/-- Session state of PokemonAutoChessEnv after construction: space sizes
queried once, cached mask and last observation, optional SpawnSpec
(server_cmd) and tracked server process handle. -/
structure EnvState where
  num_actions : Nat
  obs_size : Nat
  current_action_mask : List Int
  last_obs : List F32
  server_cmd : Option String := none
  has_server_proc : Bool := false
  deriving Repr, DecidableEq

/-- The state right after __init__: mask defaults to all-ones
(np.ones(num_actions, int8)), last_obs to zeros(obs_size). -/
def EnvState.initial (num_actions obs_size : Nat) (server_cmd : Option String) : EnvState :=
  { num_actions := num_actions
    obs_size := obs_size
    current_action_mask := List.replicate num_actions 1
    last_obs := List.replicate obs_size 0
    server_cmd := server_cmd
    has_server_proc := false }

/-- The success-path body shared by reset and the post-restart reset in
pac_env.py: parse the observation, read actionMask with the np.ones default,
inject it back as info key action_masks, and cache mask and observation. -/
def applyResetResponse (st : EnvState) (r : ResetResponse) :
    EnvState × List F32 × InfoMap :=
  let mask := r.info.actionMask.getD (List.replicate st.num_actions 1)
  let info := { r.info with action_masks := some mask }
  ({ st with current_action_mask := mask, last_obs := r.observation },
   r.observation, info)

/-- Oracle for one reset() call: outcome k is the result of the (k+1)-th
POST /reset exchange the call performs, and restartHealthy tells whether a
spawned replacement server passes the health poll within its deadline. -/
structure ResetWorld where
  outcome : Nat → Option ResetResponse
  restartHealthy : Bool

/-- Result of reset(): either the (obs, info) pair returned to the caller,
or the ConnectionError raised after the full escalation path is exhausted. -/
inductive ResetOutcome where
  | ok (obs : List F32) (info : InfoMap)
  | unresponsive
  deriving Repr, DecidableEq

/-- The retry loop in reset(): up to remaining further attempts, consuming
exchange outcomes starting at index start. A failed attempt logs, sleeps and
retries; it mutates nothing. -/
def tryResets (st : EnvState) (outcome : Nat → Option ResetResponse) :
    Nat → Nat → Option (List F32 × InfoMap × EnvState) × List Event
  | _, 0 => (none, [])
  | start, Nat.succ rem =>
    match outcome start with
    | some r =>
      let (st', obs, info) := applyResetResponse st r
      (some (obs, info, st'), [Event.resetExchange true])
    | none =>
      let (res, evs) := tryResets st outcome (start + 1) rem
      (res, Event.resetExchange false :: evs)

/-- _restart_server: returns false immediately when no server_cmd was
configured; otherwise kills the tracked process (if any) and whatever owns
the port, spawns a replacement, and polls health up to the 60 s deadline.
On health success the requests.Session is recreated (not modelled: the
session object carries no claim-relevant state); on failure the spawned
process is killed and the handle cleared. -/
def restartServer (st : EnvState) (w : ResetWorld) : Bool × EnvState × List Event :=
  match st.server_cmd with
  | none => (false, st, [])
  | some _ =>
    let killEvents :=
      (if st.has_server_proc then [Event.killProc] else []) ++ [Event.killPort]
    if w.restartHealthy then
      (true, { st with has_server_proc := true },
       killEvents ++ [Event.spawnServer, Event.healthCheck true])
    else
      (false, { st with has_server_proc := false },
       killEvents ++ [Event.spawnServer, Event.healthCheck false, Event.killProc])

/-- reset() of PokemonAutoChessEnv: up to RESET_MAX_RETRIES attempts with
backoff; if all fail, one restart via _restart_server, and if that restarts
the server, exactly one further reset attempt; otherwise (or if that attempt
also fails) raise ConnectionError (the Unresponsive fatal failure). -/
def reset (st : EnvState) (w : ResetWorld) : ResetOutcome × EnvState × List Event :=
  match tryResets st w.outcome 0 RESET_MAX_RETRIES with
  | (some (obs, info, st'), evs) => (ResetOutcome.ok obs info, st', evs)
  | (none, evs) =>
    let (restarted, st1, revs) := restartServer st w
    if restarted then
      match w.outcome RESET_MAX_RETRIES with
      | some r =>
        let (st2, obs, info) := applyResetResponse st1 r
        (ResetOutcome.ok obs info, st2, evs ++ revs ++ [Event.resetExchange true])
      | none =>
        (ResetOutcome.unresponsive, st1, evs ++ revs ++ [Event.resetExchange false])
    else
      (ResetOutcome.unresponsive, st1, evs ++ revs)

/-- step() of PokemonAutoChessEnv. The action is sent on the wire but never
changes client-side control flow. On any exchange exception the client
synthesizes a terminal transition from the cached state and retries nothing;
on success it parses the response, injects and caches the mask, and caches
the observation. Returns (obs, reward, terminated, truncated, info). -/
def step (st : EnvState) (_action : Int) (outcome : Option StepResponse) :
    (List F32 × F32 × Bool × Bool × InfoMap) × EnvState × List Event :=
  match outcome with
  | none =>
    ((st.last_obs, 0, true, true,
      { actionMask := none, action_masks := some st.current_action_mask,
        timeout := some true }),
     st, [Event.stepExchange false])
  | some r =>
    let mask := r.info.actionMask.getD (List.replicate st.num_actions 1)
    let info := { r.info with action_masks := some mask }
    ((r.observation, r.reward, r.done, false, info),
     { st with current_action_mask := mask, last_obs := r.observation },
     [Event.stepExchange true])

/-- action_masks() of PokemonAutoChessEnv: returns the cached mask; modelled
as a method call returning the value and the (unchanged) state. -/
def action_masks (st : EnvState) : List Int × EnvState :=
  (st.current_action_mask, st)

/-! ## Vectorized multi-agent client: SelfPlayVecEnv
(src/training/selfplay_vec_env.py) -/

/-- Session state of SelfPlayVecEnv after construction: N (num_agents) and
the space sizes queried once; the per-seat mask matrix _action_masks
(N rows of length num_actions), the per-seat last-observation matrix
_last_obs (N rows of length obs_size), and the pending-action buffer set by
step_async and consumed by step_wait. This component owns no SpawnSpec. -/
structure VecState where
  num_agents : Nat
  num_actions : Nat
  obs_size : Nat
  action_masks : List (List Int)
  last_obs : List (List F32)
  pending_actions : Option (List Int) := none
  deriving Repr, DecidableEq

/-- The state right after SelfPlayVecEnv.__init__: mask matrix all ones,
observation matrix all zeros, no pending actions. -/
def VecState.initial (num_agents num_actions obs_size : Nat) : VecState :=
  { num_agents := num_agents
    num_actions := num_actions
    obs_size := obs_size
    action_masks := List.replicate num_agents (List.replicate num_actions 1)
    last_obs := List.replicate num_agents (List.replicate obs_size 0)
    pending_actions := none }

/-- In-place row assignment loop of step_wait
(for i, info in enumerate(infos): ... self._action_masks[i] = mask):
row i of mat is overwritten with row i of newRows, for each i having a new
row. Claims apply it to well-formed responses, where newRows has exactly as
many rows as mat and each new row has the row length numpy requires. -/
def overwriteRows {α : Type} : List α → List α → List α
  | mat, [] => mat
  | [], _ => []
  | _ :: ms, r :: rs => r :: overwriteRows ms rs

/-- Result of step_wait(): the (obs, rewards, dones, infos) tuple, the
RuntimeError raised when step_async was not called first, or the
ConnectionError propagating out of the fused auto-reset. -/
inductive VecStepResult where
  | ok (obs : List (List F32)) (rewards : List F32) (dones : List Bool)
       (infos : List InfoMap)
  | runtimeError
  | unresponsive
  deriving Repr, DecidableEq

/-- Oracle for one step_wait() call: the outcome of the POST /step-multi
exchange, and outcome k of the (k+1)-th POST /reset exchange should the call
auto-reset. -/
structure VecWorld where
  stepOutcome : Option StepMultiResponse
  resetOutcome : Nat → Option ResetResponse

/-- The retry loop of SelfPlayVecEnv.reset(): up to remaining further
attempts, consuming exchange outcomes starting at index start. On success
the single response observation and mask are broadcast (np.tile) to all N
seats and cached; a failed attempt mutates nothing. -/
def vecTryResets (st : VecState) (outcome : Nat → Option ResetResponse) :
    Nat → Nat → Option (List (List F32) × VecState) × List Event
  | _, 0 => (none, [])
  | start, Nat.succ rem =>
    match outcome start with
    | some r =>
      let mask := r.info.actionMask.getD (List.replicate st.num_actions 1)
      let all_obs := List.replicate st.num_agents r.observation
      (some (all_obs,
             { st with action_masks := List.replicate st.num_agents mask,
                       last_obs := all_obs }),
       [Event.resetExchange true])
    | none =>
      let (res, evs) := vecTryResets st outcome (start + 1) rem
      (res, Event.resetExchange false :: evs)

/-- reset() of SelfPlayVecEnv: up to RESET_MAX_RETRIES attempts with backoff;
no SpawnSpec, so no restart escalation — exhaustion raises ConnectionError,
modelled as the none result. -/
def vecReset (st : VecState) (outcome : Nat → Option ResetResponse) :
    Option (List (List F32) × VecState) × List Event :=
  vecTryResets st outcome 0 RESET_MAX_RETRIES

/-- step_async() of SelfPlayVecEnv: stores the batch in the pending-action
buffer. -/
def step_async (st : VecState) (actions : List Int) : VecState :=
  { st with pending_actions := some actions }

/-- step_wait() of SelfPlayVecEnv. Raises RuntimeError before any exchange
when no batch is pending. On an exchange exception: clears the buffer,
synthesizes a terminal batch (cached observations, zero rewards, all-true
dones, per-seat infos carrying timeout and the pre-reset cached mask rows),
then performs the fused reset() whose observations replace the synthetic
ones; the reset may itself raise. On success: clears the buffer, injects and
caches per-seat masks, caches observations, and when every done flag is true
performs the fused reset() whose observations replace the terminal ones. -/
def step_wait (st : VecState) (w : VecWorld) :
    VecStepResult × VecState × List Event :=
  match st.pending_actions with
  | none => (VecStepResult.runtimeError, st, [])
  | some _ =>
    match w.stepOutcome with
    | none =>
      let st1 := { st with pending_actions := none }
      let rewards := List.replicate st.num_agents (0 : F32)
      let dones := List.replicate st.num_agents true
      let infos := (List.range st.num_agents).map fun i =>
        { actionMask := none,
          action_masks := some (st.action_masks.getD i []),
          timeout := some true : InfoMap }
      match vecReset st1 w.resetOutcome with
      | (some (obs, st2), evs) =>
        (VecStepResult.ok obs rewards dones infos, st2,
         Event.stepExchange false :: evs)
      | (none, evs) =>
        (VecStepResult.unresponsive, st1, Event.stepExchange false :: evs)
    | some r =>
      let st1 := { st with pending_actions := none }
      let newMasks := r.infos.map fun info =>
        info.actionMask.getD (List.replicate st.num_actions 1)
      let infos := r.infos.map fun info =>
        { info with
          action_masks := some (info.actionMask.getD
            (List.replicate st.num_actions 1)) }
      let st2 := { st1 with
        action_masks := overwriteRows st1.action_masks newMasks,
        last_obs := r.observations }
      if r.dones.all id then
        match vecReset st2 w.resetOutcome with
        | (some (obs, st3), evs) =>
          (VecStepResult.ok obs r.rewards r.dones infos, st3,
           Event.stepExchange true :: evs)
        | (none, evs) =>
          (VecStepResult.unresponsive, st2, Event.stepExchange true :: evs)
      else
        (VecStepResult.ok r.observations r.rewards r.dones infos, st2,
         [Event.stepExchange true])

/-- action_masks() of SelfPlayVecEnv: returns the cached N-row mask matrix;
modelled as a method call returning the value and the (unchanged) state. -/
def vec_action_masks (st : VecState) : List (List Int) × VecState :=
  (st.action_masks, st)

/-! ## Concrete fixtures used by witnesses and counterexamples -/

/-- A sample spawn command string for states with a configured SpawnSpec. -/
def spawnCmd : String := "npm run training-server"

/-- Sample single-agent state (actionCount 2, observationSize 1), no
SpawnSpec configured. -/
def envNoSpawn : EnvState := EnvState.initial 2 1 none

/-- Sample single-agent state with a SpawnSpec configured. -/
def envSpawn : EnvState := EnvState.initial 2 1 (some spawnCmd)

/-- Sample reset response with an explicit action mask of length 2. -/
def respReset : ResetResponse :=
  { observation := [1], info := { actionMask := some [1, 0] } }

/-- Sample well-formed step response for envNoSpawn carrying no actionMask
key, so the all-ones default applies. -/
def respNoMask : StepResponse := { observation := [0], reward := 1, done := false }

/-- Step response whose observation length 3 mismatches the
construction-time observationSize of envNoSpawn. -/
def respBadLen : StepResponse := { observation := [0, 0, 0], reward := 0, done := false }

/-- Reset world in which every exchange fails and a restarted server would
not become healthy. -/
def wAllFailR : ResetWorld := { outcome := fun _ => none, restartHealthy := false }

/-- Reset world in which every exchange succeeds at once. -/
def wResetOk : ResetWorld :=
  { outcome := fun _ => some respReset, restartHealthy := false }

/-- Reset world in which the first three exchanges fail, the restart health
poll succeeds, and the post-restart exchange succeeds. -/
def wRestartOk : ResetWorld :=
  { outcome := fun k => if k = 3 then some respReset else none, restartHealthy := true }

/-- Sample vectorized state (N = 2, actionCount 2, observationSize 1) with
a pending action batch set by step_async. -/
def stVec : VecState := step_async (VecState.initial 2 2 1) [0, 1]

/-- Sample vectorized state with no pending action batch. -/
def stVecIdle : VecState := VecState.initial 2 2 1

/-- Batched step response in which seat 1 is done but seat 0 is not. -/
def respMixed : StepMultiResponse :=
  { observations := [[1], [2]], rewards := [0, 1], dones := [false, true],
    infos := [{}, { actionMask := some [0, 1] }] }

/-- Batched step response in which every seat is done. -/
def respAllDone : StepMultiResponse :=
  { observations := [[1], [2]], rewards := [3, 4], dones := [true, true],
    infos := [{ actionMask := some [1, 0] }, {}] }

/-- Vector world: the batched step succeeds with a mixed-done response. -/
def wMixed : VecWorld :=
  { stepOutcome := some respMixed, resetOutcome := fun _ => none }

/-- Vector world: the batched step succeeds with an all-done response and
the fused reset succeeds at once. -/
def wAllDone : VecWorld :=
  { stepOutcome := some respAllDone, resetOutcome := fun _ => some respReset }

/-- Vector world: the batched step fails and the auto-reset succeeds. -/
def wStepFail : VecWorld :=
  { stepOutcome := none, resetOutcome := fun _ => some respReset }

/-- Vector world: the batched step fails and every reset exchange fails. -/
def wAllFail : VecWorld :=
  { stepOutcome := none, resetOutcome := fun _ => none }

/-! ## Helper lemmas -/

/-- Helper: a successful pass through the vectorized retry loop never
touches the pending-action buffer. -/
theorem vecTryResets_pending_eq (st : VecState) (o : Nat → Option ResetResponse) :
    ∀ start rem obs st',
      (vecTryResets st o start rem).1 = some (obs, st') →
      st'.pending_actions = st.pending_actions := by
  intro start rem
  induction rem generalizing start with
  | zero => intro obs st' h; simp [vecTryResets] at h
  | succ n ih =>
    intro obs st' h
    cases h0 : o start with
    | some r =>
      simp [vecTryResets, h0] at h
      rw [← h.2]
    | none =>
      simp [vecTryResets, h0] at h
      exact ih (start + 1) obs st' h

/-- Helper: a successful vectorized reset() never touches the pending-action
buffer. -/
theorem vecReset_pending_eq (st : VecState) (o : Nat → Option ResetResponse)
    (obs : List (List F32)) (st' : VecState)
    (h : (vecReset st o).1 = some (obs, st')) :
    st'.pending_actions = st.pending_actions :=
  vecTryResets_pending_eq st o 0 RESET_MAX_RETRIES obs st' (by simpa [vecReset] using h)

/-- Helper: the vectorized retry loop succeeds whenever some attempt within
its bound has a successful exchange outcome. -/
theorem vecTryResets_isSome (st : VecState) (o : Nat → Option ResetResponse) :
    ∀ start rem k, k < rem → (o (start + k)).isSome →
      ((vecTryResets st o start rem).1).isSome := by
  intro start rem
  induction rem generalizing start with
  | zero => intro k hk; omega
  | succ n ih =>
    intro k hk hsome
    cases h0 : o start with
    | some r => simp [vecTryResets, h0]
    | none =>
      cases k with
      | zero =>
        rw [Nat.add_zero, h0] at hsome
        simp at hsome
      | succ k' =>
        have hrec := ih (start + 1) k' (by omega) (by
          have : start + 1 + k' = start + (k' + 1) := by omega
          rw [this]
          exact hsome)
        simp [vecTryResets, h0]
        exact hrec

/-! ## Claim theorems -/

/-- Claim C1: for every well-formed batched step response, if at least one
done flag is false then step_wait performs no reset exchange and returns the
response observations; if every done flag is true then step_wait performs
exactly one reset exchange (the fused reset, here succeeding on its first
attempt) and returns the broadcast post-reset observations in place of the
terminal ones, while still returning the terminal rewards and the all-true
done flags. -/
theorem C1_step_wait_all_done_fusion (st : VecState) (w : VecWorld) (acts : List Int)
    (r : StepMultiResponse)
    (hp : st.pending_actions = some acts) (hr : w.stepOutcome = some r) :
    (r.dones.all id = false →
       (step_wait st w).1 = VecStepResult.ok r.observations r.rewards r.dones
           (r.infos.map fun info =>
             { info with action_masks := some (info.actionMask.getD
                 (List.replicate st.num_actions 1)) }) ∧
       ((step_wait st w).2.2).countP Event.isResetExchange = 0) ∧
    (∀ rr, r.dones.all id = true → w.resetOutcome 0 = some rr →
       (step_wait st w).1 = VecStepResult.ok
           (List.replicate st.num_agents rr.observation) r.rewards r.dones
           (r.infos.map fun info =>
             { info with action_masks := some (info.actionMask.getD
                 (List.replicate st.num_actions 1)) }) ∧
       ((step_wait st w).2.2).countP Event.isResetExchange = 1) := by
  constructor
  · intro hall
    simp [step_wait, hp, hr, hall, Event.isResetExchange, List.countP_cons,
      List.countP_nil]
  · intro rr hall hrr
    simp [step_wait, hp, hr, hall, vecReset, RESET_MAX_RETRIES, vecTryResets, hrr,
      Event.isResetExchange, List.countP_cons, List.countP_nil]

/-- Witness for C1 at concrete states, a mixed-done response and an
all-done response. -/
theorem C1_step_wait_all_done_fusion_witness :
    ((step_wait stVec wMixed).1 = VecStepResult.ok respMixed.observations
        respMixed.rewards respMixed.dones
        (respMixed.infos.map fun info =>
          { info with action_masks := some (info.actionMask.getD
              (List.replicate stVec.num_actions 1)) }) ∧
     ((step_wait stVec wMixed).2.2).countP Event.isResetExchange = 0) ∧
    ((step_wait stVec wAllDone).1 = VecStepResult.ok
        (List.replicate stVec.num_agents respReset.observation)
        respAllDone.rewards respAllDone.dones
        (respAllDone.infos.map fun info =>
          { info with action_masks := some (info.actionMask.getD
              (List.replicate stVec.num_actions 1)) }) ∧
     ((step_wait stVec wAllDone).2.2).countP Event.isResetExchange = 1) :=
  ⟨(C1_step_wait_all_done_fusion stVec wMixed [0, 1] respMixed rfl rfl).1 (by decide),
   (C1_step_wait_all_done_fusion stVec wAllDone [0, 1] respAllDone rfl rfl).2
     respReset (by decide) rfl⟩

/-- Claim C2: on any transport failure during step, the single-agent client
does not retry and returns a synthetic terminal transition: the cached last
observation verbatim, reward 0, done (terminated) true, and an info map
carrying timeout = true together with the cached action mask. -/
theorem C2_step_failure_synthetic_terminal (st : EnvState) (a : Int) :
    step st a none =
      ((st.last_obs, 0, true, true,
        { actionMask := none, action_masks := some st.current_action_mask,
          timeout := some true }),
       st, [Event.stepExchange false]) := rfl

/-- Claim C3: when all RESET_MAX_RETRIES reset attempts fail and a
SpawnSpec is configured (and the restarted server passes its health poll),
exactly one restart cycle runs: exactly one spawn, exactly one port kill, a
kill of the tracked process when one is tracked, and exactly one further
reset exchange (four in total); reset() returns the result of that further
attempt on success and raises ConnectionError (Unresponsive) when it fails,
with no second restart. -/
theorem C3_reset_restart_cycle (st : EnvState) (w : ResetWorld) (c : String)
    (h0 : w.outcome 0 = none) (h1 : w.outcome 1 = none) (h2 : w.outcome 2 = none)
    (hc : st.server_cmd = some c) (hh : w.restartHealthy = true) :
    ((reset st w).2.2.countP Event.isSpawn = 1 ∧
     (reset st w).2.2.countP Event.isResetExchange = RESET_MAX_RETRIES + 1 ∧
     (reset st w).2.2.countP Event.isKillPort = 1 ∧
     (st.has_server_proc = true → (reset st w).2.2.countP Event.isKillProc = 1)) ∧
    (∀ r, w.outcome 3 = some r →
       (reset st w).1 = ResetOutcome.ok r.observation
         { r.info with action_masks := some (r.info.actionMask.getD
             (List.replicate st.num_actions 1)) }) ∧
    (w.outcome 3 = none → (reset st w).1 = ResetOutcome.unresponsive) := by
  cases hp : st.has_server_proc <;>
    cases h3 : w.outcome 3 <;>
      simp [reset, RESET_MAX_RETRIES, tryResets, restartServer, applyResetResponse,
        h0, h1, h2, h3, hc, hh, hp, Event.isSpawn, Event.isResetExchange,
        Event.isKillPort, Event.isKillProc, List.countP, List.countP.go]

/-- Witness for C3 at a concrete state and world in which the three
attempts fail, the restart succeeds and the fourth exchange succeeds. -/
theorem C3_reset_restart_cycle_witness :
    ((reset envSpawn wRestartOk).2.2.countP Event.isSpawn = 1 ∧
     (reset envSpawn wRestartOk).2.2.countP Event.isResetExchange = 4 ∧
     (reset envSpawn wRestartOk).2.2.countP Event.isKillPort = 1 ∧
     (envSpawn.has_server_proc = true →
       (reset envSpawn wRestartOk).2.2.countP Event.isKillProc = 1)) ∧
    (reset envSpawn wRestartOk).1 = ResetOutcome.ok respReset.observation
      { respReset.info with action_masks := some (respReset.info.actionMask.getD
          (List.replicate envSpawn.num_actions 1)) } :=
  ⟨(C3_reset_restart_cycle envSpawn wRestartOk spawnCmd rfl rfl rfl rfl rfl).1,
   (C3_reset_restart_cycle envSpawn wRestartOk spawnCmd rfl rfl rfl rfl rfl).2.1
     respReset rfl⟩

/-- Claim C4: when all RESET_MAX_RETRIES reset attempts fail and no
SpawnSpec is configured, reset() raises ConnectionError (Unresponsive) with
no restart action at all: the trace holds exactly the three failed reset
exchanges (no process kill, no port kill, no spawn, no health poll, no
extra reset attempt) and the session state is unchanged. -/
theorem C4_reset_exhausted_no_spawnspec (st : EnvState) (w : ResetWorld)
    (h0 : w.outcome 0 = none) (h1 : w.outcome 1 = none) (h2 : w.outcome 2 = none)
    (hc : st.server_cmd = none) :
    reset st w = (ResetOutcome.unresponsive, st,
      [Event.resetExchange false, Event.resetExchange false,
       Event.resetExchange false]) := by
  simp [reset, RESET_MAX_RETRIES, tryResets, restartServer, h0, h1, h2, hc]

/-- Witness for C4 at a concrete state and world. -/
theorem C4_reset_exhausted_no_spawnspec_witness :
    reset envNoSpawn wAllFailR = (ResetOutcome.unresponsive, envNoSpawn,
      [Event.resetExchange false, Event.resetExchange false,
       Event.resetExchange false]) :=
  C4_reset_exhausted_no_spawnspec envNoSpawn wAllFailR rfl rfl rfl rfl

/-- Counterexample to claim C5 as stated: with the batched step exchange
failing and every reset exchange failing too, the vectorized step_wait does
not absorb the failure — the fused auto-reset exhausts its retries and its
ConnectionError propagates to the caller of step_wait. -/
theorem C5_vec_step_failure_can_raise :
    (step_wait stVec wAllFail).1 = VecStepResult.unresponsive := rfl

/-- Claim C5 (amended): the step transport failure itself never propagates:
the single-agent client returns the synthetic terminal transition, and the
vectorized client synthesizes a terminal batch (zero rewards, all-true
dones, per-seat timeout infos) and returns it normally provided the fused
auto-reset succeeds within its retry bound. -/
theorem C5_step_failure_absorbed (st : EnvState) (a : Int) (vst : VecState)
    (w : VecWorld) (acts : List Int)
    (hp : vst.pending_actions = some acts) (hs : w.stepOutcome = none)
    (hex : ∃ k, k < RESET_MAX_RETRIES ∧ (w.resetOutcome k).isSome) :
    step st a none =
      ((st.last_obs, 0, true, true,
        { actionMask := none, action_masks := some st.current_action_mask,
          timeout := some true }),
       st, [Event.stepExchange false]) ∧
    ∃ obs st' evs, step_wait vst w =
      (VecStepResult.ok obs (List.replicate vst.num_agents 0)
        (List.replicate vst.num_agents true)
        ((List.range vst.num_agents).map fun i =>
          { actionMask := none,
            action_masks := some (vst.action_masks.getD i []),
            timeout := some true }),
       st', evs) := by
  refine ⟨rfl, ?_⟩
  obtain ⟨k, hk, hks⟩ := hex
  have h1 : ((vecReset { vst with pending_actions := none } w.resetOutcome).1).isSome := by
    have := vecTryResets_isSome { vst with pending_actions := none }
      w.resetOutcome 0 RESET_MAX_RETRIES k hk (by simpa using hks)
    simpa [vecReset] using this
  rcases hvr : (vecReset { vst with pending_actions := none } w.resetOutcome) with ⟨res, evs⟩
  rw [hvr] at h1
  cases res with
  | none => simp at h1
  | some p =>
    rcases p with ⟨obs, st2⟩
    exact ⟨obs, st2, Event.stepExchange false :: evs, by
      simp [step_wait, hp, hs, hvr]⟩

/-- Witness for the amended C5 at concrete states and a world in which the
batched step fails and the auto-reset succeeds. -/
theorem C5_step_failure_absorbed_witness :
    step envNoSpawn 0 none =
      ((envNoSpawn.last_obs, 0, true, true,
        { actionMask := none, action_masks := some envNoSpawn.current_action_mask,
          timeout := some true }),
       envNoSpawn, [Event.stepExchange false]) ∧
    ∃ obs st' evs, step_wait stVec wStepFail =
      (VecStepResult.ok obs (List.replicate stVec.num_agents 0)
        (List.replicate stVec.num_agents true)
        ((List.range stVec.num_agents).map fun i =>
          { actionMask := none,
            action_masks := some (stVec.action_masks.getD i []),
            timeout := some true }),
       st', evs) :=
  C5_step_failure_absorbed envNoSpawn 0 stVec wStepFail [0, 1] rfl rfl
    ⟨0, by decide, rfl⟩

/-- Counterexample to claim C6 as stated: a step response whose observation
length 3 mismatches the construction-time observationSize 1 is not treated
as a protocol error — it is returned to the caller verbatim. -/
theorem C6_mismatch_not_rejected :
    (step envNoSpawn 0 (some respBadLen)).1.1 = [0, 0, 0] ∧
    envNoSpawn.obs_size = 1 ∧
    ((step envNoSpawn 0 (some respBadLen)).1.1).length ≠ envNoSpawn.obs_size :=
  ⟨rfl, rfl, by decide⟩

/-- Claim C6 (amended): for every well-formed step or reset response — one
whose observation length equals the construction-time observationSize and
whose actionMask, when present, has length actionCount — the observation
vector and the injected action mask returned to the caller have those
lengths; a mismatched response, however, is not detected: it is returned to
the caller unchanged rather than treated as a protocol error. -/
theorem C6_well_formed_lengths (st : EnvState) (a : Int) (r : StepResponse)
    (rr : ResetResponse) (w : ResetWorld)
    (hobs : r.observation.length = st.obs_size)
    (hmask : ∀ m, r.info.actionMask = some m → m.length = st.num_actions)
    (hrobs : rr.observation.length = st.obs_size)
    (hrmask : ∀ m, rr.info.actionMask = some m → m.length = st.num_actions)
    (hw : w.outcome 0 = some rr) :
    ((step st a (some r)).1.1).length = st.obs_size ∧
    (∀ m, ((step st a (some r)).1.2.2.2.2).action_masks = some m →
       m.length = st.num_actions) ∧
    (∀ obs info, (reset st w).1 = ResetOutcome.ok obs info →
       obs.length = st.obs_size ∧
       ∀ m, info.action_masks = some m → m.length = st.num_actions) := by
  refine ⟨hobs, ?_, ?_⟩
  · intro m hm
    have hm' : m = r.info.actionMask.getD (List.replicate st.num_actions 1) := by
      simpa [step] using hm.symm
    subst hm'
    cases h : r.info.actionMask with
    | none => simp [h]
    | some m' => simpa [h] using hmask m' h
  · intro obs info hok
    have hred : (reset st w).1 = ResetOutcome.ok rr.observation
        { rr.info with action_masks := some (rr.info.actionMask.getD
            (List.replicate st.num_actions 1)) } := by
      simp [reset, RESET_MAX_RETRIES, tryResets, applyResetResponse, hw]
    rw [hred] at hok
    simp only [ResetOutcome.ok.injEq] at hok
    obtain ⟨hobs', hinfo⟩ := hok
    constructor
    · rw [← hobs', hrobs]
    · intro m hm
      rw [← hinfo] at hm
      simp only [Option.some.injEq] at hm
      subst hm
      cases h : rr.info.actionMask with
      | none => simp [h]
      | some m' => simpa [h] using hrmask m' h

/-- Witness for the amended C6 at a concrete well-formed step response and
reset response. -/
theorem C6_well_formed_lengths_witness :
    ((step envNoSpawn 0 (some respNoMask)).1.1).length = envNoSpawn.obs_size ∧
    (∀ m, ((step envNoSpawn 0 (some respNoMask)).1.2.2.2.2).action_masks = some m →
       m.length = envNoSpawn.num_actions) ∧
    (∀ obs info, (reset envNoSpawn wResetOk).1 = ResetOutcome.ok obs info →
       obs.length = envNoSpawn.obs_size ∧
       ∀ m, info.action_masks = some m → m.length = envNoSpawn.num_actions) :=
  C6_well_formed_lengths envNoSpawn 0 respNoMask respReset wResetOk rfl
    (by intro m hm; simp [respNoMask] at hm)
    rfl
    (by
      intro m hm
      have hm' : m = [1, 0] := by simpa [respReset] using hm.symm
      subst hm'
      rfl)
    rfl

/-- Claim C7: a successful vectorized reset() whose first exchange succeeds
performs exactly one reset exchange and broadcasts the single response
observation and mask to all N seats: the returned observation matrix is N
identical rows of the response observation and the cached mask matrix is N
identical rows of the response mask. -/
theorem C7_vec_reset_broadcast (st : VecState) (o : Nat → Option ResetResponse)
    (r : ResetResponse) (h0 : o 0 = some r) :
    vecReset st o =
      (some (List.replicate st.num_agents r.observation,
        { st with
          action_masks := List.replicate st.num_agents
            (r.info.actionMask.getD (List.replicate st.num_actions 1)),
          last_obs := List.replicate st.num_agents r.observation }),
       [Event.resetExchange true]) := by
  simp [vecReset, RESET_MAX_RETRIES, vecTryResets, h0]

/-- Witness for C7 at a concrete state and oracle. -/
theorem C7_vec_reset_broadcast_witness :
    vecReset stVecIdle (fun _ => some respReset) =
      (some (List.replicate stVecIdle.num_agents respReset.observation,
        { stVecIdle with
          action_masks := List.replicate stVecIdle.num_agents
            (respReset.info.actionMask.getD (List.replicate stVecIdle.num_actions 1)),
          last_obs := List.replicate stVecIdle.num_agents respReset.observation }),
       [Event.resetExchange true]) :=
  C7_vec_reset_broadcast stVecIdle (fun _ => some respReset) respReset rfl

/-- Claim C8: action_masks() is idempotent in both clients: it neither
mutates the session state nor changes value across two consecutive calls
with no intervening step or reset. -/
theorem C8_action_masks_idempotent (st : EnvState) (vst : VecState) :
    (action_masks (action_masks st).2).1 = (action_masks st).1 ∧
    (action_masks st).2 = st ∧
    (vec_action_masks (vec_action_masks vst).2).1 = (vec_action_masks vst).1 ∧
    (vec_action_masks vst).2 = vst :=
  ⟨rfl, rfl, rfl, rfl⟩

/-- Claim C9: a single-agent reset() that raises leaves the cached session
state — the current action mask and the last observation — exactly as it
was before the call; the step() failure path likewise leaves both caches
unchanged, so these fields are mutated only on success paths. -/
theorem C9_failed_reset_preserves_cache (st : EnvState) (w : ResetWorld) (a : Int)
    (hfail : (reset st w).1 = ResetOutcome.unresponsive) :
    (reset st w).2.1.current_action_mask = st.current_action_mask ∧
    (reset st w).2.1.last_obs = st.last_obs ∧
    (step st a none).2.1.current_action_mask = st.current_action_mask ∧
    (step st a none).2.1.last_obs = st.last_obs := by
  refine ⟨?_, ?_, rfl, rfl⟩ <;>
  · rcases h0 : w.outcome 0 with _ | r0 <;>
    rcases h1 : w.outcome 1 with _ | r1 <;>
    rcases h2 : w.outcome 2 with _ | r2 <;>
    rcases h3 : w.outcome 3 with _ | r3 <;>
    rcases hc : st.server_cmd with _ | c <;>
    cases hh : w.restartHealthy <;>
      simp_all [reset, RESET_MAX_RETRIES, tryResets, restartServer,
        applyResetResponse, step]

/-- Witness for C9 at a concrete state and world whose reset raises. -/
theorem C9_failed_reset_preserves_cache_witness :
    (reset envNoSpawn wAllFailR).2.1.current_action_mask = envNoSpawn.current_action_mask ∧
    (reset envNoSpawn wAllFailR).2.1.last_obs = envNoSpawn.last_obs ∧
    (step envNoSpawn 0 none).2.1.current_action_mask = envNoSpawn.current_action_mask ∧
    (step envNoSpawn 0 none).2.1.last_obs = envNoSpawn.last_obs :=
  C9_failed_reset_preserves_cache envNoSpawn wAllFailR 0 rfl

/-- Claim C10: step_wait with no pending batch raises RuntimeError before
any exchange and leaves the session untouched; step_wait with a pending
batch clears the pending-action buffer before returning, on the success
path and on the transport-failure path alike. -/
theorem C10_step_wait_pending_buffer (st : VecState) (w : VecWorld) :
    (st.pending_actions = none →
       step_wait st w = (VecStepResult.runtimeError, st, [])) ∧
    (∀ acts, st.pending_actions = some acts →
       (step_wait st w).2.1.pending_actions = none) := by
  constructor
  · intro h
    simp [step_wait, h]
  · intro acts h
    cases hs : w.stepOutcome with
    | none =>
      rcases hvr : (vecReset { st with pending_actions := none } w.resetOutcome) with ⟨res, evs⟩
      cases res with
      | none => simp [step_wait, h, hs, hvr]
      | some p =>
        rcases p with ⟨obs, st2⟩
        have hp2 : st2.pending_actions = none :=
          vecReset_pending_eq _ _ obs st2 (by rw [hvr])
        simp [step_wait, h, hs, hvr, hp2]
    | some r =>
      cases hall : r.dones.all id with
      | false => simp [step_wait, h, hs, hall]
      | true =>
        rcases hvr : (vecReset { st with pending_actions := none, action_masks := overwriteRows st.action_masks (r.infos.map fun info => info.actionMask.getD (List.replicate st.num_actions 1)), last_obs := r.observations } w.resetOutcome) with ⟨res, evs⟩
        cases res with
        | none => simp [step_wait, h, hs, hall, hvr]
        | some p =>
          rcases p with ⟨obs, st3⟩
          have hp3 : st3.pending_actions = none :=
            vecReset_pending_eq _ _ obs st3 (by rw [hvr])
          simp [step_wait, h, hs, hall, hvr, hp3]

/-- Witness for C10 at a concrete idle state (RuntimeError, untouched) and
a concrete pending state (buffer cleared). -/
theorem C10_step_wait_pending_buffer_witness :
    step_wait stVecIdle wAllFail = (VecStepResult.runtimeError, stVecIdle, []) ∧
    (step_wait stVec wMixed).2.1.pending_actions = none :=
  ⟨(C10_step_wait_pending_buffer stVecIdle wAllFail).1 rfl,
   (C10_step_wait_pending_buffer stVec wMixed).2 [0, 1] rfl⟩

end PacTraining
